import Mathlib

/-!
# Verification of the xk6-mcp k6 extension (Go) against its specification

Shallow embedding of the repository's Go code: the metrics recorders
(`pushRequestMetrics` in mcp.go and `K6Metrics.Push` in metrics/metrics.go),
the `Client` RPC wrappers and the paginated `ListAllTools` /
`ListAllResources` / `ListAllPrompts` aggregation loops, the `Module`
session state machine (`Connect` / `ListTools` / `CallTool`), the
bearer-token HTTP-client wrapper `newk6HTTPClient`, and the transport
constructors `newStdioClient` / `newSSEClient` / `newStreamableHTTPClient`.

Conventions of the embedding:
* Go `error` values are `Option String` (the message) or `Except String α`
  for fallible functions; `nil` error is `none` / `Except.ok`.
* Go `time.Duration` is a `Nat` of nanoseconds; the float64 millisecond
  division performed when emitting a duration sample is modelled exactly
  as rational division (the claims under audit concern which samples are
  emitted, not float rounding).
* The remote peer behind a `*mcp.ClientSession` is modelled as an oracle:
  for paginated calls, a function from the call index (0, 1, 2, …) to that
  call's outcome; for single calls, the single outcome.  This captures
  every possible sequence of peer responses.
* Opaque SDK record types (`mcp.Tool`, `mcp.Resource`, `mcp.Prompt`, …)
  are reduced to a representative field; the code under audit never
  inspects their contents.
-/

namespace XK6MCP

/-- `mcp.Tool` (external SDK struct); the client treats it opaquely, so a
representative field suffices. -/
structure Tool where
  name : String
deriving DecidableEq, Repr

/-- `mcp.Resource` (external SDK struct), reduced to a representative field. -/
structure Resource where
  uri : String
deriving DecidableEq, Repr

/-- `mcp.Prompt` (external SDK struct), reduced to a representative field. -/
structure Prompt where
  name : String
deriving DecidableEq, Repr

/-- `mcp.CallToolResult` (external SDK struct), reduced to a representative
field. -/
structure CallToolResult where
  content : List String
deriving DecidableEq, Repr

/-- `mcp.ReadResourceResult` (external SDK struct), reduced to a
representative field. -/
structure ReadResourceResult where
  contents : List String
deriving DecidableEq, Repr

/-- `mcp.GetPromptResult` (external SDK struct), reduced to a representative
field. -/
structure GetPromptResult where
  messages : List String
deriving DecidableEq, Repr

/-- One page of a paginated list result: Go's `mcp.ListToolsResult`
(`Tools []*mcp.Tool`, `NextCursor string`) and its resource/prompt
analogues.  The item slice holds Go pointers, hence `Option α`: `none` is a
nil entry. -/
structure Page (α : Type) where
  items : List (Option α)
  nextCursor : String
deriving DecidableEq, Repr

/-- A peer behind the session, for paginated list calls: the outcome of the
i-th page request issued on the session (0-based call index).  An
`Except.error` is a non-nil Go error from `session.ListTools` (etc.). -/
def Peer (α : Type) : Type := Nat → Except String (Page α)

/-- `err != nil` test on a modelled call outcome: the Go error returned
alongside a result. -/
def errOf {α : Type} : Except String α → Option String
  | .ok _ => none
  | .error e => some e

/-! ## Metrics samples

`metrics.Sample` from the k6 API, restricted to the fields the code sets:
the metric (by its registered name), the tag set, and the numeric value.
The `Time` field (wall clock) is not modelled. -/

/-- One emitted k6 metric sample (metric name, tags, value). -/
structure Sample where
  metric : String
  tags : List (String × String)
  value : ℚ
deriving DecidableEq, Repr

/-- `float64(duration) / float64(time.Millisecond)`: the duration value in
milliseconds, duration given in nanoseconds.  Modelled as exact rational
division. -/
def msValue (durationNs : Nat) : ℚ := (durationNs : ℚ) / 1000000

/-- `tags := <base>.With("method", method)`: the ambient tag set extended
with the method tag. -/
def withMethodTag (baseTags : List (String × String)) (method : String) :
    List (String × String) :=
  ("method", method) :: baseTags

/-- `pushRequestMetrics` (mcp.go, `Client` version): the list of samples
emitted for one RPC invocation.  Always one `mcp_request_duration` sample
(milliseconds) and one `mcp_request_count` sample (value 1); if the call's
error is non-nil, additionally one `mcp_request_errors` sample (value 1).
The `metrics.PushIfNotDone` sink handoff is modelled by collecting the
samples in emission order. -/
def pushRequestMetrics (baseTags : List (String × String)) (method : String)
    (durationNs : Nat) (err : Option String) : List Sample :=
  let tags := withMethodTag baseTags method
  [{ metric := "mcp_request_duration", tags := tags, value := msValue durationNs },
   { metric := "mcp_request_count", tags := tags, value := 1 }]
    ++ (match err with
        | none => []
        | some _ => [{ metric := "mcp_request_errors", tags := tags, value := 1 }])

/-- `K6Metrics.Push` (metrics/metrics.go): the list of samples emitted for
one RPC invocation by the metrics-package recorder.  Like
`pushRequestMetrics`, but on a non-nil error it emits a fourth sample on
the `mcp_request_errors_duration` trend metric (milliseconds). -/
def K6MetricsPush (baseTags : List (String × String)) (method : String)
    (durationNs : Nat) (err : Option String) : List Sample :=
  let tags := withMethodTag baseTags method
  [{ metric := "mcp_request_duration", tags := tags, value := msValue durationNs },
   { metric := "mcp_request_count", tags := tags, value := 1 }]
    ++ (match err with
        | none => []
        | some _ =>
          [{ metric := "mcp_request_errors", tags := tags, value := 1 },
           { metric := "mcp_request_errors_duration", tags := tags,
             value := msValue durationNs }])

/-! ## Paginated aggregation (mcp.go: `ListAllTools`, `ListAllResources`,
`ListAllPrompts`)

The Go loop is

```
cursor := ""
for {
    params := ...; if cursor != "" { params.Cursor = cursor }
    result, err = session.List...(ctx, params)
    pushRequestMetrics(...)
    if err != nil { break }
    for _, t := range result.Items { if t != nil { all = append(all, *t) } }
    if result.NextCursor == "" { break }
    cursor = result.NextCursor
}
if err != nil { return nil, fmt.Errorf("failed to list ...: %w", err) }
return all, nil
```

`listAllLoop wrap peer fuel i cursor acc` runs up to `fuel` further
iterations of this loop, the next page request being the `i`-th call on the
session.  It returns `some outcome` when the loop exits (Go returns) within
`fuel` iterations and `none` when `fuel` iterations have run without
exiting — the Go code itself has no bound, so `∀ fuel, … = none` states
that the Go loop never exits.  The `cursor` argument mirrors the Go local:
it selects the request parameters sent but (the peer being indexed by call
count) does not otherwise steer the model.  The per-iteration
`pushRequestMetrics` emission does not feed back into the loop's control
flow or result and is modelled separately by `pushRequestMetrics` above. -/

/-- One paginated aggregation loop (generic in the item type, as the three
Go copies differ only in the item type, method name and error wrapping). -/
def listAllLoop {α : Type} (wrap : String) (peer : Peer α) :
    Nat → Nat → String → List α → Option (Except String (List α))
  | 0, _, _, _ => none
  | fuel + 1, i, _cursor, acc =>
    match peer i with
    | .error e => some (.error (wrap ++ e))
    | .ok page =>
      let acc2 := acc ++ page.items.filterMap id
      if page.nextCursor = "" then some (.ok acc2)
      else listAllLoop wrap peer fuel (i + 1) page.nextCursor acc2

/-- `Client.ListAllTools` (mcp.go): the aggregation loop with the
tools-specific error wrapping, started on a fresh cursor and empty
accumulator; `fuel` bounds the observed iterations (the Go loop is
unbounded). -/
def listAllTools (peer : Peer Tool) (fuel : Nat) :
    Option (Except String (List Tool)) :=
  listAllLoop "failed to list tools: " peer fuel 0 "" []

/-- `Client.ListAllResources` (mcp.go): resource instantiation of the
aggregation loop. -/
def listAllResources (peer : Peer Resource) (fuel : Nat) :
    Option (Except String (List Resource)) :=
  listAllLoop "failed to list resources: " peer fuel 0 "" []

/-- `Client.ListAllPrompts` (mcp.go): prompt instantiation of the
aggregation loop. -/
def listAllPrompts (peer : Peer Prompt) (fuel : Nat) :
    Option (Except String (List Prompt)) :=
  listAllLoop "failed to list prompts: " peer fuel 0 "" []

/-- The peer answers the calls `i, i+1, …` with the successive pages of
`ps` (each fetch succeeds and returns the next page). -/
def peerServes {α : Type} (peer : Peer α) : Nat → List (Page α) → Prop
  | _, [] => True
  | i, p :: rest => peer i = .ok p ∧ peerServes peer (i + 1) rest

/-- A well-terminating page sequence: every page but the last has a
non-empty `nextCursor`, the last has an empty one (the sequence is
non-empty). -/
def goodPages {α : Type} : List (Page α) → Bool
  | [] => false
  | p :: rest =>
    if rest.isEmpty then p.nextCursor == ""
    else (p.nextCursor != "") && goodPages rest

/-- A page with no nil item pointers, as the spec's data model has it
(`items : ordered sequence of T`). -/
structure PlainPage (α : Type) where
  items : List α
  nextCursor : String
deriving DecidableEq, Repr

/-- Injection of a nil-free page into the Go page shape. -/
def PlainPage.toPage {α : Type} (q : PlainPage α) : Page α :=
  { items := q.items.map some, nextCursor := q.nextCursor }

/-- A peer that answers every page request with a successful page whose
`nextCursor` is the same non-empty token, never signalling the end of the
listing. -/
def constantCursorPeer : Peer Tool := fun _ => .ok { items := [], nextCursor := "c" }

/-- The aggregation loop never exits, for any number of observed
iterations: this is non-termination of the unbounded Go `for` loop. -/
def listAllToolsNeverExits (peer : Peer Tool) : Prop :=
  ∀ fuel, listAllTools peer fuel = none

/-- Witness fixtures for claim C2: a two-page tool listing and one-page
resource and prompt listings. -/
def c2ToolPages : List (PlainPage Tool) :=
  [{ items := [{ name := "a" }], nextCursor := "c1" },
   { items := [{ name := "b" }, { name := "c" }], nextCursor := "" }]

def c2ToolPeer : Peer Tool := fun i =>
  match i with
  | 0 => .ok { items := [some { name := "a" }], nextCursor := "c1" }
  | _ => .ok { items := [some { name := "b" }, some { name := "c" }], nextCursor := "" }

def c2ResPages : List (PlainPage Resource) :=
  [{ items := [{ uri := "r" }], nextCursor := "" }]

def c2ResPeer : Peer Resource := fun _ =>
  .ok { items := [some { uri := "r" }], nextCursor := "" }

def c2PromptPages : List (PlainPage Prompt) :=
  [{ items := [{ name := "p" }], nextCursor := "" }]

def c2PromptPeer : Peer Prompt := fun _ =>
  .ok { items := [some { name := "p" }], nextCursor := "" }

/-- Witness fixtures for claim C3: a tool peer that serves one page and
then fails, and resource/prompt peers that fail on the first request. -/
def c3ToolPages : List (Page Tool) :=
  [{ items := [some { name := "a" }], nextCursor := "c1" }]

def c3ToolPeer : Peer Tool := fun i =>
  match i with
  | 0 => .ok { items := [some { name := "a" }], nextCursor := "c1" }
  | _ => .error "boom"

def c3ResPeer : Peer Resource := fun _ => .error "rboom"

def c3PromptPeer : Peer Prompt := fun _ => .error "pboom"

/-- Witness fixtures for claim C10: single pages containing nil entries. -/
def c10ToolPages : List (Page Tool) :=
  [{ items := [some { name := "a" }, none, some { name := "b" }], nextCursor := "" }]

def c10ToolPeer : Peer Tool := fun _ =>
  .ok { items := [some { name := "a" }, none, some { name := "b" }], nextCursor := "" }

def c10ResPages : List (Page Resource) :=
  [{ items := [none, some { uri := "r" }], nextCursor := "" }]

def c10ResPeer : Peer Resource := fun _ =>
  .ok { items := [none, some { uri := "r" }], nextCursor := "" }

def c10PromptPages : List (Page Prompt) :=
  [{ items := [none], nextCursor := "" }]

def c10PromptPeer : Peer Prompt := fun _ =>
  .ok { items := [none], nextCursor := "" }

/-! ## Module session state machine (mcp.go, `Module`/`MCP` version)

`Module` holds `session *mcp.ClientSession`; it is `nil` until a successful
`Connect` stores it.  Each RPC method guards on a nil session before doing
anything else.  Methods are modelled with the underlying session call's
outcome supplied as an oracle argument, and they return, besides the Go
return value, the list of transport interactions performed and the metric
samples emitted, so that "performs no interaction with the transport" is a
provable statement. -/

/-- A live `*mcp.ClientSession` handle (opaque). -/
structure Session where
  id : Nat
deriving DecidableEq, Repr

/-- The session-holding state of `MCP` (`session == nil` ⇔ `none`). -/
structure ModuleState where
  session : Option Session
deriving DecidableEq, Repr

/-- `AuthConfig` (mcp.go). -/
structure AuthConfig where
  bearerToken : String
deriving DecidableEq, Repr

/-- `Config` (mcp.go, `Module` version). -/
structure Config where
  baseURL : String
  auth : AuthConfig
  tracingEnabled : Bool
deriving DecidableEq, Repr

/-- `mcp.ListToolsParams`, reduced to the field the code sets (`Cursor`;
`Meta` elided as opaque). -/
structure ListToolsParams where
  cursor : String
deriving DecidableEq, Repr

/-- `mcp.CallToolParams`, reduced to a representative field. -/
structure CallToolParams where
  name : String
deriving DecidableEq, Repr

/-- Observable interactions with the transport/session performed by a
`Module` method. -/
inductive TransportOp
  | transportConstructed
  | handshake
  | listToolsRequest
  | callToolRequest
deriving DecidableEq, Repr

/-- `Module.ListTools` (mcp.go): if no session is stored, return the guard
error having touched nothing; otherwise issue the request (outcome given by
the oracle), record metrics under `tools/list`, and propagate result or
error.  Returns (Go return value, transport interactions, emitted
samples). -/
def moduleListTools (st : ModuleState) (_params : ListToolsParams)
    (outcome : Except String (Page Tool)) (durationNs : Nat)
    (baseTags : List (String × String)) :
    Except String (Page Tool) × List TransportOp × List Sample :=
  match st.session with
  | none => (.error "must call `Connect()` before calling `ListTools()`", [], [])
  | some _ =>
    (outcome, [.listToolsRequest],
      pushRequestMetrics baseTags "tools/list" durationNs (errOf outcome))

/-- `Module.CallTool` (mcp.go): same shape as `moduleListTools`, method
`tools/call`. -/
def moduleCallTool (st : ModuleState) (_params : CallToolParams)
    (outcome : Except String CallToolResult) (durationNs : Nat)
    (baseTags : List (String × String)) :
    Except String CallToolResult × List TransportOp × List Sample :=
  match st.session with
  | none => (.error "must call `Connect()` before calling `CallTool()`", [], [])
  | some _ =>
    (outcome, [.callToolRequest],
      pushRequestMetrics baseTags "tools/call" durationNs (errOf outcome))

/-- `Module.Connect` (mcp.go): when a session is already stored, return nil
immediately — no HTTP client, no transport, no SDK client, no handshake, no
metrics.  Otherwise build the transport, attempt the handshake (outcome
given by the oracle), record metrics under `connect`, and store the session
on success. -/
def moduleConnect (st : ModuleState) (_cfg : Config)
    (handshakeOutcome : Except String Session) (durationNs : Nat)
    (baseTags : List (String × String)) :
    Except String Unit × ModuleState × List TransportOp × List Sample :=
  match st.session with
  | some _ => (.ok (), st, [], [])
  | none =>
    match handshakeOutcome with
    | .error e =>
      (.error e, st, [.transportConstructed, .handshake],
        pushRequestMetrics baseTags "connect" durationNs (some e))
    | .ok s =>
      (.ok (), { session := some s }, [.transportConstructed, .handshake],
        pushRequestMetrics baseTags "connect" durationNs none)

/-! ## Client RPC wrappers (mcp.go, `Client` version) -/

/-- `Client.Ping` (mcp.go): issues the ping and returns `err == nil` — every
failure category collapses to `false`.  (No metrics are recorded by this
method.) -/
def clientPing (outcome : Except String Unit) : Bool :=
  match outcome with
  | .ok _ => true
  | .error _ => false

/-- `Client.ListTools` (mcp.go): times the session call, records metrics
under `tools/list`, and returns the result and error unchanged. -/
def clientListTools (baseTags : List (String × String)) (durationNs : Nat)
    (outcome : Except String (Page Tool)) :
    Except String (Page Tool) × List Sample :=
  (outcome, pushRequestMetrics baseTags "tools/list" durationNs (errOf outcome))

/-- `Client.CallTool` (mcp.go): metrics under `tools/call`, result and
error unchanged. -/
def clientCallTool (baseTags : List (String × String)) (durationNs : Nat)
    (outcome : Except String CallToolResult) :
    Except String CallToolResult × List Sample :=
  (outcome, pushRequestMetrics baseTags "tools/call" durationNs (errOf outcome))

/-- `Client.ListResources` (mcp.go): metrics under `resources/list`, result
and error unchanged. -/
def clientListResources (baseTags : List (String × String)) (durationNs : Nat)
    (outcome : Except String (Page Resource)) :
    Except String (Page Resource) × List Sample :=
  (outcome, pushRequestMetrics baseTags "resources/list" durationNs (errOf outcome))

/-- `Client.ReadResource` (mcp.go): metrics under `resources/read`, result
and error unchanged. -/
def clientReadResource (baseTags : List (String × String)) (durationNs : Nat)
    (outcome : Except String ReadResourceResult) :
    Except String ReadResourceResult × List Sample :=
  (outcome, pushRequestMetrics baseTags "resources/read" durationNs (errOf outcome))

/-- `Client.ListPrompts` (mcp.go): metrics under `prompts/list`, result and
error unchanged. -/
def clientListPrompts (baseTags : List (String × String)) (durationNs : Nat)
    (outcome : Except String (Page Prompt)) :
    Except String (Page Prompt) × List Sample :=
  (outcome, pushRequestMetrics baseTags "prompts/list" durationNs (errOf outcome))

/-- `Client.GetPrompt` (mcp.go): metrics under `prompts/get`, result and
error unchanged. -/
def clientGetPrompt (baseTags : List (String × String)) (durationNs : Nat)
    (outcome : Except String GetPromptResult) :
    Except String GetPromptResult × List Sample :=
  (outcome, pushRequestMetrics baseTags "prompts/get" durationNs (errOf outcome))

/-! ## Bearer-token HTTP client (mcp.go: `newk6HTTPClient`) -/

/-- An outbound HTTP request, observed through its header list. -/
structure HTTPRequest where
  headers : List (String × String)
deriving DecidableEq, Repr

/-- `http.Header.Set`: set the key to the value, replacing any existing
entries for it. -/
def setHeader (req : HTTPRequest) (k v : String) : HTTPRequest :=
  { headers := (k, v) :: req.headers.filter (fun p => p.1 ≠ k) }

/-- An HTTP client, observed through the request it puts on the wire:
`send i req` is the wire form of the `i`-th request `req` issued through
the client. -/
structure HTTPClient where
  send : Nat → HTTPRequest → HTTPRequest

/-- The base client assembled by `newk6HTTPClient` before the auth tail: an
`http.Client` over an `http.Transport` carrying the VU's dialer, TLS,
proxy and keep-alive policy.  Those are connection-level options; the
transport forwards the request's headers unchanged. -/
def k6BaseClient : HTTPClient := { send := fun _ req => req }

/-- `oauth2.StaticTokenSource`: a non-refreshing source yielding the same
access token for every request. -/
def oauth2StaticTokenSource (token : String) : Nat → String := fun _ => token

/-- `oauth2.NewClient` over a token source and a base client: its
transport sets `Authorization: Bearer <token>` on (a clone of) each
outgoing request and then delegates to the base client, which it references
without modifying. -/
def oauth2NewClient (source : Nat → String) (base : HTTPClient) : HTTPClient :=
  { send := fun i req =>
      base.send i (setHeader req "Authorization" ("Bearer " ++ source i)) }

/-- The auth tail of `newk6HTTPClient` (mcp.go): with an empty bearer token
the base client is returned as built; otherwise the oauth2 wrapping of that
client with a static token source is returned. -/
def newk6HTTPClient (auth : AuthConfig) (base : HTTPClient) : HTTPClient :=
  if auth.bearerToken = "" then base
  else oauth2NewClient (oauth2StaticTokenSource auth.bearerToken) base

/-! ## Transport construction (mcp.go: `newStdioClient`, `newSSEClient`,
`newStreamableHTTPClient`) -/

/-- `ClientConfig` (mcp.go): stdio fields plus the HTTP fields.  The Go
`Env` map is modelled as an association list. -/
structure ClientConfig where
  path : String
  args : List String
  env : List (String × String)
  debug : Bool
  baseURL : String
  timeoutNs : Nat
  auth : AuthConfig
deriving DecidableEq, Repr

/-- `exec.Cmd` as assembled by `newStdioClient`: executable path, argument
vector, environment overrides, and whether the subprocess's diagnostic
stream is routed to the caller's stderr (`Debug`). -/
structure CommandSpec where
  path : String
  args : List String
  env : List (String × String)
  stderrToCaller : Bool
deriving DecidableEq, Repr

/-- `mcp.CommandTransport`. -/
structure CommandTransport where
  command : CommandSpec
deriving DecidableEq, Repr

/-- `mcp.SSEClientTransport`: endpoint plus the HTTP client built by
`newk6HTTPClient`. -/
structure SSEClientTransport where
  endpoint : String
  httpClient : HTTPClient

/-- `mcp.StreamableClientTransport`: endpoint plus the HTTP client built by
`newk6HTTPClient`. -/
structure StreamableClientTransport where
  endpoint : String
  httpClient : HTTPClient

/-- The transport-construction prefix of `newStdioClient` (mcp.go): the
command and transport are assembled directly from the configuration.  The
Go code has no validation branch between decoding the configuration and
building the transport, so construction is total — `Except.ok` for every
configuration, an empty `Path` included; failure to spawn or speak to the
subprocess surfaces only from the subsequent connect attempt. -/
def newStdioTransport (cfg : ClientConfig) : Except String CommandTransport :=
  .ok { command :=
    { path := cfg.path, args := cfg.args, env := cfg.env,
      stderrToCaller := cfg.debug } }

/-- The transport-construction prefix of `newSSEClient` (mcp.go): likewise
unconditional — the endpoint is taken from `BaseURL` (empty or not). -/
def newSSETransport (cfg : ClientConfig) : Except String SSEClientTransport :=
  .ok { endpoint := cfg.baseURL,
        httpClient := newk6HTTPClient cfg.auth k6BaseClient }

/-- The transport-construction prefix of `newStreamableHTTPClient`
(mcp.go): likewise unconditional. -/
def newStreamableTransport (cfg : ClientConfig) :
    Except String StreamableClientTransport :=
  .ok { endpoint := cfg.baseURL,
        httpClient := newk6HTTPClient cfg.auth k6BaseClient }

/-- A configuration with an empty executable path and an empty base URL. -/
def emptyPathConfig : ClientConfig :=
  { path := "", args := [], env := [], debug := false, baseURL := "",
    timeoutNs := 0, auth := { bearerToken := "" } }

theorem filterMap_id_map_some {α : Type} (l : List α) :
    (l.map some).filterMap id = l := by
  induction l with
  | nil => rfl
  | cons a t ih => simp [ih]

/-- One unfolding step of the loop (the body of the Go `for`). -/
theorem listAllLoop_succ {α : Type} (wrap : String) (peer : Peer α)
    (fuel i : Nat) (cursor : String) (acc : List α) :
    listAllLoop wrap peer (fuel + 1) i cursor acc
      = match peer i with
        | .error e => some (.error (wrap ++ e))
        | .ok page =>
          if page.nextCursor = "" then some (.ok (acc ++ page.items.filterMap id))
          else listAllLoop wrap peer fuel (i + 1) page.nextCursor
            (acc ++ page.items.filterMap id) := rfl

/-- The loop consumes exactly a well-terminating page sequence served by
the peer, returning the accumulator extended by the concatenation of the
pages' non-nil items. -/
theorem listAllLoop_spec {α : Type} (wrap : String) (peer : Peer α) :
    ∀ (ps : List (Page α)) (i : Nat) (cursor : String) (acc : List α),
      peerServes peer i ps → goodPages ps = true →
      listAllLoop wrap peer ps.length i cursor acc
        = some (.ok (acc ++ (ps.map (fun p => p.items.filterMap id)).flatten)) := by
  intro ps
  induction ps with
  | nil => intro i cursor acc _ hg; simp [goodPages] at hg
  | cons p rest ih =>
    intro i cursor acc hserve hg
    obtain ⟨hpi, hrest⟩ := hserve
    cases rest with
    | nil =>
      have hcur : p.nextCursor = "" := by
        simpa [goodPages] using hg
      simp [listAllLoop, hpi, hcur]
    | cons q rs =>
      have hg' : p.nextCursor != "" ∧ goodPages (q :: rs) = true := by
        simpa [goodPages] using hg
      have hcur : ¬ p.nextCursor = "" := by
        simpa using hg'.1
      have hstep : listAllLoop wrap peer ((q :: rs).length + 1) i cursor acc
          = listAllLoop wrap peer (q :: rs).length (i + 1) p.nextCursor
              (acc ++ p.items.filterMap id) := by
        rw [listAllLoop_succ, hpi]
        simp [hcur]
      rw [List.length_cons, hstep,
        ih (i + 1) p.nextCursor (acc ++ p.items.filterMap id) hrest hg'.2]
      simp [List.append_assoc]

/-- If the peer serves `ps.length` successful pages each carrying a
non-empty cursor and then fails, the loop exits with the wrapped error and
its accumulator is discarded (the result carries no items, whatever `acc`
held). -/
theorem listAllLoop_err {α : Type} (wrap : String) (peer : Peer α) :
    ∀ (ps : List (Page α)) (i : Nat) (cursor : String) (acc : List α) (e : String),
      peerServes peer i ps → (ps.all fun p => p.nextCursor != "") = true →
      peer (i + ps.length) = .error e →
      listAllLoop wrap peer (ps.length + 1) i cursor acc
        = some (.error (wrap ++ e)) := by
  intro ps
  induction ps with
  | nil =>
    intro i cursor acc e _ _ herr
    simp only [List.length_nil, Nat.add_zero] at herr
    simp [listAllLoop, herr]
  | cons p rest ih =>
    intro i cursor acc e hserve hall herr
    obtain ⟨hpi, hrest⟩ := hserve
    simp only [List.all_cons, Bool.and_eq_true] at hall
    have hcur : ¬ p.nextCursor = "" := by
      simpa using hall.1
    have herr' : peer ((i + 1) + rest.length) = .error e := by
      have : (i + 1) + rest.length = i + (p :: rest).length := by
        simp [List.length_cons]; omega
      rw [this]; exact herr
    have hstep : listAllLoop wrap peer ((rest.length + 1) + 1) i cursor acc
        = listAllLoop wrap peer (rest.length + 1) (i + 1) p.nextCursor
            (acc ++ p.items.filterMap id) := by
      rw [listAllLoop_succ, hpi]
      simp [hcur]
    rw [List.length_cons, hstep,
      ih (i + 1) p.nextCursor (acc ++ p.items.filterMap id) e hrest hall.2 herr']

theorem map_items_toPage {α : Type} :
    ∀ ts : List (PlainPage α),
      (ts.map PlainPage.toPage).map (fun p => p.items.filterMap id)
        = ts.map PlainPage.items
  | [] => rfl
  | q :: ts => by
    simp [PlainPage.toPage, filterMap_id_map_some, map_items_toPage ts]

theorem flatten_filterMap_length_le {α : Type} (ps : List (Page α)) :
    ((ps.map fun p => p.items.filterMap id).flatten).length
      ≤ (ps.map fun p => p.items.length).sum := by
  induction ps with
  | nil => simp
  | cons p rest ih =>
    simp only [List.map_cons, List.flatten_cons, List.length_append, List.sum_cons]
    exact Nat.add_le_add (List.length_filterMap_le _ _) ih

theorem listAllLoop_constCursor_none (wrap : String) :
    ∀ (fuel i : Nat) (cursor : String) (acc : List Tool),
      listAllLoop wrap constantCursorPeer fuel i cursor acc = none := by
  intro fuel
  induction fuel with
  | zero => intro i cursor acc; rfl
  | succ n ih =>
    intro i cursor acc
    rw [listAllLoop_succ]
    simp only [constantCursorPeer]
    rw [if_neg (by decide)]
    exact ih (i + 1) "c" (acc ++ List.filterMap id [])

/-- Claim C1: a successful invocation recorded through the metrics recorder
emits exactly two samples (duration, count) and a failed one exactly three
(duration, count, error count) and no other sample.  This holds of
`pushRequestMetrics` (mcp.go) but the code of `K6Metrics.Push`
(metrics/metrics.go) emits a fourth sample, `mcp_request_errors_duration`,
on every failed invocation — contradicting the repository's own test
`TestK6ErrorMetrics`, which asserts that a failing call produces exactly 3
samples.  Evaluated here at the failing input: method `tools/call`,
duration 5ms, non-nil error. -/
theorem claim_C1_error_sample_count :
    (pushRequestMetrics [] "tools/call" 5000000 none).length = 2
    ∧ (pushRequestMetrics [] "tools/call" 5000000 (some "tool not found")).length = 3
    ∧ (K6MetricsPush [] "tools/call" 5000000 none).length = 2
    ∧ (K6MetricsPush [] "tools/call" 5000000 (some "tool not found")).length = 4
    ∧ (K6MetricsPush [] "tools/call" 5000000 (some "tool not found")).map Sample.metric
        = ["mcp_request_duration", "mcp_request_count", "mcp_request_errors",
           "mcp_request_errors_duration"] := by
  refine ⟨rfl, rfl, rfl, rfl, rfl⟩

/-- Claim C2: for every sequence of pages `P1..Pn` in which `P1..P(n-1)`
carry a non-empty `nextCursor`, `Pn` an empty one, and every page fetch
succeeds, `ListAllTools` (and likewise `ListAllResources` and
`ListAllPrompts`) returns, without error, the in-order concatenation of the
pages' items. -/
theorem claim_C2_list_all_concat
    (ts : List (PlainPage Tool)) (rs : List (PlainPage Resource))
    (qs : List (PlainPage Prompt))
    (pt : Peer Tool) (pr : Peer Resource) (pq : Peer Prompt)
    (hts : peerServes pt 0 (ts.map PlainPage.toPage))
    (hgt : goodPages (ts.map PlainPage.toPage) = true)
    (hrs : peerServes pr 0 (rs.map PlainPage.toPage))
    (hgr : goodPages (rs.map PlainPage.toPage) = true)
    (hqs : peerServes pq 0 (qs.map PlainPage.toPage))
    (hgq : goodPages (qs.map PlainPage.toPage) = true) :
    listAllTools pt ts.length = some (.ok (ts.map PlainPage.items).flatten)
    ∧ listAllResources pr rs.length = some (.ok (rs.map PlainPage.items).flatten)
    ∧ listAllPrompts pq qs.length = some (.ok (qs.map PlainPage.items).flatten) := by
  refine ⟨?_, ?_, ?_⟩
  · have h := listAllLoop_spec "failed to list tools: " pt
      (ts.map PlainPage.toPage) 0 "" [] hts hgt
    rw [List.length_map, map_items_toPage] at h
    simpa [listAllTools] using h
  · have h := listAllLoop_spec "failed to list resources: " pr
      (rs.map PlainPage.toPage) 0 "" [] hrs hgr
    rw [List.length_map, map_items_toPage] at h
    simpa [listAllResources] using h
  · have h := listAllLoop_spec "failed to list prompts: " pq
      (qs.map PlainPage.toPage) 0 "" [] hqs hgq
    rw [List.length_map, map_items_toPage] at h
    simpa [listAllPrompts] using h

/-- Witness for claim C2 at the concrete fixtures. -/
theorem claim_C2_list_all_concat_witness :
    peerServes c2ToolPeer 0 (c2ToolPages.map PlainPage.toPage)
    ∧ goodPages (c2ToolPages.map PlainPage.toPage) = true
    ∧ peerServes c2ResPeer 0 (c2ResPages.map PlainPage.toPage)
    ∧ goodPages (c2ResPages.map PlainPage.toPage) = true
    ∧ peerServes c2PromptPeer 0 (c2PromptPages.map PlainPage.toPage)
    ∧ goodPages (c2PromptPages.map PlainPage.toPage) = true
    ∧ (listAllTools c2ToolPeer c2ToolPages.length
        = some (.ok (c2ToolPages.map PlainPage.items).flatten)
      ∧ listAllResources c2ResPeer c2ResPages.length
        = some (.ok (c2ResPages.map PlainPage.items).flatten)
      ∧ listAllPrompts c2PromptPeer c2PromptPages.length
        = some (.ok (c2PromptPages.map PlainPage.items).flatten)) :=
  ⟨⟨rfl, rfl, trivial⟩, by decide, ⟨rfl, trivial⟩, by decide, ⟨rfl, trivial⟩, by decide,
    claim_C2_list_all_concat c2ToolPages c2ResPages c2PromptPages
      c2ToolPeer c2ResPeer c2PromptPeer
      ⟨rfl, rfl, trivial⟩ (by decide) ⟨rfl, trivial⟩ (by decide) ⟨rfl, trivial⟩ (by decide)⟩

/-- Claim C3: if, after `k` successful pages (each with a non-empty
cursor), the `k+1`-st page fetch fails, the aggregate operation returns the
underlying error wrapped with the operation's name and no items at all —
the accumulated items are discarded (the conclusion does not depend on the
pages already fetched). -/
theorem claim_C3_error_discards_partial
    (ts : List (Page Tool)) (rs : List (Page Resource)) (qs : List (Page Prompt))
    (pt : Peer Tool) (pr : Peer Resource) (pq : Peer Prompt)
    (e1 e2 e3 : String)
    (hts : peerServes pt 0 ts)
    (hat : (ts.all fun p => p.nextCursor != "") = true)
    (het : pt ts.length = .error e1)
    (hrs : peerServes pr 0 rs)
    (har : (rs.all fun p => p.nextCursor != "") = true)
    (her : pr rs.length = .error e2)
    (hqs : peerServes pq 0 qs)
    (haq : (qs.all fun p => p.nextCursor != "") = true)
    (heq : pq qs.length = .error e3) :
    listAllTools pt (ts.length + 1)
      = some (.error ("failed to list tools: " ++ e1))
    ∧ listAllResources pr (rs.length + 1)
      = some (.error ("failed to list resources: " ++ e2))
    ∧ listAllPrompts pq (qs.length + 1)
      = some (.error ("failed to list prompts: " ++ e3)) := by
  refine ⟨?_, ?_, ?_⟩
  · simpa [listAllTools] using
      listAllLoop_err "failed to list tools: " pt ts 0 "" [] e1 hts hat
        (by simpa [Nat.zero_add] using het)
  · simpa [listAllResources] using
      listAllLoop_err "failed to list resources: " pr rs 0 "" [] e2 hrs har
        (by simpa [Nat.zero_add] using her)
  · simpa [listAllPrompts] using
      listAllLoop_err "failed to list prompts: " pq qs 0 "" [] e3 hqs haq
        (by simpa [Nat.zero_add] using heq)

/-- Witness for claim C3 at the concrete fixtures: the tool page already
fetched is discarded. -/
theorem claim_C3_error_discards_partial_witness :
    peerServes c3ToolPeer 0 c3ToolPages
    ∧ (c3ToolPages.all fun p => p.nextCursor != "") = true
    ∧ c3ToolPeer c3ToolPages.length = .error "boom"
    ∧ peerServes c3ResPeer 0 ([] : List (Page Resource))
    ∧ c3ResPeer 0 = .error "rboom"
    ∧ c3PromptPeer 0 = .error "pboom"
    ∧ (listAllTools c3ToolPeer (c3ToolPages.length + 1)
        = some (.error ("failed to list tools: " ++ "boom"))
      ∧ listAllResources c3ResPeer (List.length ([] : List (Page Resource)) + 1)
        = some (.error ("failed to list resources: " ++ "rboom"))
      ∧ listAllPrompts c3PromptPeer (List.length ([] : List (Page Prompt)) + 1)
        = some (.error ("failed to list prompts: " ++ "pboom"))) :=
  ⟨⟨rfl, trivial⟩, by decide, rfl, trivial, rfl, rfl,
    claim_C3_error_discards_partial c3ToolPages [] [] c3ToolPeer c3ResPeer c3PromptPeer
      "boom" "rboom" "pboom"
      ⟨rfl, trivial⟩ (by decide) rfl trivial rfl rfl trivial rfl rfl⟩

/-- Claim C4: the claim asserts that the aggregate list-all loop stops
after a bounded number of iterations even when the peer never returns an
empty `nextCursor`.  The code has no iteration bound and no repeated-cursor
detection: against a peer that always answers with the same non-empty
cursor, the loop has not exited after any number of iterations — the Go
`for` loop runs unboundedly.  (`listAllToolsNeverExits` unfolds to
`∀ fuel, listAllTools constantCursorPeer fuel = none`.) -/
theorem claim_C4_no_termination_bound : listAllToolsNeverExits constantCursorPeer := by
  intro fuel
  exact listAllLoop_constCursor_none "failed to list tools: " fuel 0 "" []

/-- Claim C10: the aggregate list-all operations silently drop nil item
pointers: on a fully successful pagination the result is the concatenation
of the pages' non-nil items (`filterMap id`), dereferenced in order, and
its length is at most the sum of the page lengths.  (The result list holds
dereferenced values, so it cannot contain a nil entry.) -/
theorem claim_C10_nil_items_dropped
    (ts : List (Page Tool)) (rs : List (Page Resource)) (qs : List (Page Prompt))
    (pt : Peer Tool) (pr : Peer Resource) (pq : Peer Prompt)
    (hts : peerServes pt 0 ts) (hgt : goodPages ts = true)
    (hrs : peerServes pr 0 rs) (hgr : goodPages rs = true)
    (hqs : peerServes pq 0 qs) (hgq : goodPages qs = true) :
    (listAllTools pt ts.length
        = some (.ok (ts.map fun p => p.items.filterMap id).flatten)
      ∧ ((ts.map fun p => p.items.filterMap id).flatten).length
          ≤ (ts.map fun p => p.items.length).sum)
    ∧ (listAllResources pr rs.length
        = some (.ok (rs.map fun p => p.items.filterMap id).flatten)
      ∧ ((rs.map fun p => p.items.filterMap id).flatten).length
          ≤ (rs.map fun p => p.items.length).sum)
    ∧ (listAllPrompts pq qs.length
        = some (.ok (qs.map fun p => p.items.filterMap id).flatten)
      ∧ ((qs.map fun p => p.items.filterMap id).flatten).length
          ≤ (qs.map fun p => p.items.length).sum) := by
  refine ⟨⟨?_, flatten_filterMap_length_le ts⟩, ⟨?_, flatten_filterMap_length_le rs⟩,
    ⟨?_, flatten_filterMap_length_le qs⟩⟩
  · simpa [listAllTools] using
      listAllLoop_spec "failed to list tools: " pt ts 0 "" [] hts hgt
  · simpa [listAllResources] using
      listAllLoop_spec "failed to list resources: " pr rs 0 "" [] hrs hgr
  · simpa [listAllPrompts] using
      listAllLoop_spec "failed to list prompts: " pq qs 0 "" [] hqs hgq

/-- Witness for claim C10 at the concrete fixtures: the nil entries are
dropped and each result is strictly shorter than the page's item slice. -/
theorem claim_C10_nil_items_dropped_witness :
    peerServes c10ToolPeer 0 c10ToolPages ∧ goodPages c10ToolPages = true
    ∧ peerServes c10ResPeer 0 c10ResPages ∧ goodPages c10ResPages = true
    ∧ peerServes c10PromptPeer 0 c10PromptPages ∧ goodPages c10PromptPages = true
    ∧ listAllTools c10ToolPeer 1 = some (.ok [{ name := "a" }, { name := "b" }])
    ∧ listAllResources c10ResPeer 1 = some (.ok [{ uri := "r" }])
    ∧ listAllPrompts c10PromptPeer 1 = some (.ok ([] : List Prompt)) :=
  ⟨⟨rfl, trivial⟩, by decide, ⟨rfl, trivial⟩, by decide, ⟨rfl, trivial⟩, by decide, by
    have h := claim_C10_nil_items_dropped c10ToolPages c10ResPages c10PromptPages
      c10ToolPeer c10ResPeer c10PromptPeer
      ⟨rfl, trivial⟩ (by decide) ⟨rfl, trivial⟩ (by decide) ⟨rfl, trivial⟩ (by decide)
    refine ⟨?_, ?_, ?_⟩
    · simpa [c10ToolPages] using h.1.1
    · simpa [c10ResPages] using h.2.1.1
    · simpa [c10PromptPages] using h.2.2.1⟩

/-- Counterexample to claim C5 as stated: on an unconnected session,
`Module.ListTools` does return an error without touching the transport, but
its message is "must call `Connect()` before calling `ListTools()`" — not
of the claimed form "must connect before calling <method>" (neither with
the Go method name nor with the wire method name), and it is a plain
`fmt.Errorf` error, not a distinct `SessionStateError` type. -/
theorem claim_C5_counterexample :
    (moduleListTools { session := none } { cursor := "" }
        (.ok { items := [], nextCursor := "" }) 0 []).1
      = .error "must call `Connect()` before calling `ListTools()`"
    ∧ "must call `Connect()` before calling `ListTools()`"
        ≠ "must connect before calling ListTools"
    ∧ "must call `Connect()` before calling `ListTools()`"
        ≠ "must connect before calling tools/list" :=
  ⟨rfl, by decide, by decide⟩

/-- Claim C5 (amended): every RPC method of the module (`ListTools` and
`CallTool` are its RPC surface) invoked while no session is stored returns
the error "must call `Connect()` before calling `<Method>()`", performs no
interaction with the transport, and emits no sample — whatever the
parameters and whatever the session call would have returned. -/
theorem claim_C5_rpc_guard_before_connect (params : ListToolsParams)
    (cparams : CallToolParams) (outcome : Except String (Page Tool))
    (coutcome : Except String CallToolResult) (durationNs : Nat)
    (baseTags : List (String × String)) :
    moduleListTools { session := none } params outcome durationNs baseTags
      = (.error "must call `Connect()` before calling `ListTools()`", [], [])
    ∧ moduleCallTool { session := none } cparams coutcome durationNs baseTags
      = (.error "must call `Connect()` before calling `CallTool()`", [], []) :=
  ⟨rfl, rfl⟩

/-- Claim C6: the bearer-token tail of `newk6HTTPClient`.  With an empty
token the base client is returned unchanged (so no `Authorization` header
is added to any request); with a non-empty token the returned client is the
oauth2 composition over a static token source, and every request sent
through it carries `Authorization: Bearer <token>` on the wire — the same
value for every request index, the base client being referenced, not
rebuilt. -/
theorem claim_C6_bearer_token_injection (authE authT : AuthConfig)
    (hE : authE.bearerToken = "") (hT : authT.bearerToken ≠ "") :
    (newk6HTTPClient authE k6BaseClient = k6BaseClient
      ∧ ∀ (i : Nat) (req : HTTPRequest),
          ((newk6HTTPClient authE k6BaseClient).send i req).headers = req.headers)
    ∧ (newk6HTTPClient authT k6BaseClient
        = oauth2NewClient (oauth2StaticTokenSource authT.bearerToken) k6BaseClient
      ∧ ∀ (i : Nat) (req : HTTPRequest),
          ("Authorization", "Bearer " ++ authT.bearerToken)
            ∈ ((newk6HTTPClient authT k6BaseClient).send i req).headers) := by
  constructor
  · refine ⟨by simp [newk6HTTPClient, hE], ?_⟩
    intro i req
    simp [newk6HTTPClient, hE, k6BaseClient]
  · refine ⟨by simp [newk6HTTPClient, hT], ?_⟩
    intro i req
    simp [newk6HTTPClient, hT, oauth2NewClient, k6BaseClient, setHeader,
      oauth2StaticTokenSource]

/-- Witness for claim C6, at the empty token and at token "T". -/
theorem claim_C6_bearer_token_injection_witness :
    (AuthConfig.mk "").bearerToken = ""
    ∧ (AuthConfig.mk "T").bearerToken ≠ ""
    ∧ ((newk6HTTPClient { bearerToken := "" } k6BaseClient = k6BaseClient
        ∧ ∀ (i : Nat) (req : HTTPRequest),
            ((newk6HTTPClient { bearerToken := "" } k6BaseClient).send i req).headers
              = req.headers)
      ∧ (newk6HTTPClient { bearerToken := "T" } k6BaseClient
          = oauth2NewClient (oauth2StaticTokenSource (AuthConfig.mk "T").bearerToken)
              k6BaseClient
        ∧ ∀ (i : Nat) (req : HTTPRequest),
            ("Authorization", "Bearer " ++ (AuthConfig.mk "T").bearerToken)
              ∈ ((newk6HTTPClient { bearerToken := "T" } k6BaseClient).send i req).headers)) :=
  ⟨rfl, by decide,
    claim_C6_bearer_token_injection { bearerToken := "" } { bearerToken := "T" }
      rfl (by decide)⟩

/-- Claim C7: `Connect` is idempotent — on a module whose state already
stores a session, a second `Connect`, with any configuration and whatever
a handshake would have produced, returns success immediately, constructs no
transport, performs no handshake, emits no sample, and leaves the stored
session unchanged. -/
theorem claim_C7_connect_idempotent (s : Session) (cfg : Config)
    (handshakeOutcome : Except String Session) (durationNs : Nat)
    (baseTags : List (String × String)) :
    moduleConnect { session := some s } cfg handshakeOutcome durationNs baseTags
      = (.ok (), { session := some s }, [], []) := rfl

/-- Claim C8: `Ping` collapses every outcome into a boolean — `true`
exactly on success, `false` on any failure — and it is the only RPC method
that does so: each other method of the client surface (`ListTools`,
`CallTool`, `ListResources`, `ReadResource`, `ListPrompts`, `GetPrompt`,
and the aggregate `ListAllTools` / `ListAllResources` / `ListAllPrompts`)
returns the structured error to the caller (the aggregates after wrapping
it with their operation name). -/
theorem claim_C8_ping_collapses_errors (e : String) (u : Unit)
    (baseTags : List (String × String)) (durationNs : Nat) :
    clientPing (.ok u) = true
    ∧ clientPing (.error e) = false
    ∧ (clientListTools baseTags durationNs (.error e)).1 = .error e
    ∧ (clientCallTool baseTags durationNs (.error e)).1 = .error e
    ∧ (clientListResources baseTags durationNs (.error e)).1 = .error e
    ∧ (clientReadResource baseTags durationNs (.error e)).1 = .error e
    ∧ (clientListPrompts baseTags durationNs (.error e)).1 = .error e
    ∧ (clientGetPrompt baseTags durationNs (.error e)).1 = .error e
    ∧ listAllTools (fun _ => .error e) 1
        = some (.error ("failed to list tools: " ++ e))
    ∧ listAllResources (fun _ => .error e) 1
        = some (.error ("failed to list resources: " ++ e))
    ∧ listAllPrompts (fun _ => .error e) 1
        = some (.error ("failed to list prompts: " ++ e)) :=
  ⟨rfl, rfl, rfl, rfl, rfl, rfl, rfl, rfl, rfl, rfl, rfl⟩

/-- Counterexample to claim C9 as stated: with an empty executable path
(and an empty base URL), every factory still constructs and yields its
transport — no `ConfigError` is produced for any of the three transport
kinds (no such error exists in the code). -/
theorem claim_C9_counterexample :
    newStdioTransport emptyPathConfig
      = .ok { command :=
        { path := "", args := [], env := [], stderrToCaller := false } }
    ∧ (newSSETransport emptyPathConfig).isOk = true
    ∧ (newStreamableTransport emptyPathConfig).isOk = true :=
  ⟨rfl, rfl, rfl⟩

/-- Claim C9 (amended): transport construction performs no configuration
validation at all — for every configuration, empty path or empty base URL
included, each factory succeeds and yields the transport assembled directly
from the configuration's fields; invalid endpoints or paths can only fail
later, out of the connect attempt. -/
theorem claim_C9_no_config_validation (cfg : ClientConfig) :
    (newStdioTransport cfg).isOk = true
    ∧ (newSSETransport cfg).isOk = true
    ∧ (newStreamableTransport cfg).isOk = true
    ∧ newStdioTransport cfg
        = .ok { command := { path := cfg.path, args := cfg.args,
                             env := cfg.env, stderrToCaller := cfg.debug } }
    ∧ newSSETransport cfg
        = .ok { endpoint := cfg.baseURL,
                httpClient := newk6HTTPClient cfg.auth k6BaseClient } :=
  ⟨rfl, rfl, rfl, rfl, rfl⟩

end XK6MCP
